import Mathlib

/-!
# Verification of the Paper-Canvas node-state synchronization engine

Shallow embedding of the state-management core of the Paper-Canvas
Obsidian plugin (StateManager in src/unnamed/part_003, the monolithic
iteration in src/unnamed/part_000, and the modular plugin in
src/main.ts), together with proofs about the claims of the
specification.

Conventions of the embedding:
* JavaScript numbers are modelled by `ℚ` (the clamping and reconcile
  logic uses only comparison, subtraction, `max` and `min`, so exact
  rational arithmetic is faithful to the control flow of the source).
* Page indices are modelled by `Int`.
* A JavaScript `Map` is modelled by an association list whose keys are
  unique in every reachable state; `Map.set` replaces in place,
  `Map.delete` removes the entry.
* Dynamically-typed values that may be `undefined` / non-numeric are
  modelled by `Option` (`none` = `undefined` or not-a-number).
* Nondeterministic id generation (`Date.now()` + random suffix) is
  modelled by threading an explicit seed string.
-/

namespace PaperCanvas

/-- Modelled from the spec: `constants.ts` is imported by the sources but is
not under `src/`.  The spec (§3, §8) fixes the vertical gap between page
bands at 50 pixels, and the superseded iteration `src/unnamed/part_000`
defines `PAGE_GAP = 50`. -/
def PAGE_GAP : ℚ := 50

/-- Modelled from the spec: `constants.ts` is not under `src/`; the spec
(§6) says only that the schema carries an explicit integer version.  No
claim depends on the literal value. -/
def CANVAS_DATA_VERSION : Int := 1

/-- Page dimensions, from the plugin settings
(`plugin.getPageDimensions()`); the settings tab
(src/unnamed/part_002) only accepts integer pixel values `> 50` and the
defaults are 794 × 1123. -/
structure PageDimensions where
  width : ℚ
  height : ℚ
deriving DecidableEq, Repr

/-- Result record of `clampToBounds` (src/unnamed/part_003 lines 204-213). -/
structure ClampResult where
  x : ℚ
  y : ℚ
  changed : Bool
deriving DecidableEq, Repr

/-- `StateManager.clampToBounds` (src/unnamed/part_003 lines 204-213;
textually the same algorithm as `clampToBounds` in
src/unnamed/part_000 lines 431-452 with the constant page size 794 × 1123).
The sequential mutations of the source are written as a chain of
intermediate values: `cX1`/`cY1` after the lower-bound checks, `cX2`/`cY2`
after the upper-bound checks, `cX3`/`cY3` after the oversized-axis
override (the source's `&&` is written as a nested if); `changed` records
whether any of the four clamping branches ran (the override lines do not
touch `changed`). -/
def clampToBounds (x y width height : ℚ) (pd : PageDimensions) : ClampResult :=
  let pageW := pd.width
  let pageH := pd.height
  let minX : ℚ := 0
  let minY : ℚ := 0
  let maxX : ℚ := pageW - max 1 width
  let maxY : ℚ := pageH - max 1 height
  let cX1 := if x < minX then minX else x
  let cY1 := if y < minY then minY else y
  let cX2 := if cX1 > maxX then maxX else cX1
  let cY2 := if cY1 > maxY then maxY else cY1
  let changed := decide (x < minX) || decide (y < minY) ||
    decide (cX1 > maxX) || decide (cY1 > maxY)
  let cX3 := if width > pageW then (if cX2 < minX then minX else cX2) else cX2
  let cY3 := if height > pageH then (if cY2 < minY then minY else cY2) else cY2
  ⟨cX3, cY3, changed⟩

/-- The x-component of `clampToBounds` lands in `[0, pageWidth − width]`
whenever `width ≤ pageWidth` and the page is at least one pixel wide. -/
theorem clampToBounds_x_bounds (x y width height : ℚ) (pd : PageDimensions)
    (hpw : 1 ≤ pd.width) (hw : width ≤ pd.width) :
    0 ≤ (clampToBounds x y width height pd).x ∧
      (clampToBounds x y width height pd).x ≤ pd.width - width := by
  have hmw : max (1 : ℚ) width ≤ pd.width := max_le hpw hw
  have hw1 : width ≤ max (1 : ℚ) width := le_max_right _ _
  unfold clampToBounds
  dsimp only
  split_ifs <;> constructor <;> linarith

/-- The y-component of `clampToBounds` lands in `[0, pageHeight − height]`
whenever `height ≤ pageHeight` and the page is at least one pixel tall. -/
theorem clampToBounds_y_bounds (x y width height : ℚ) (pd : PageDimensions)
    (hph : 1 ≤ pd.height) (hh : height ≤ pd.height) :
    0 ≤ (clampToBounds x y width height pd).y ∧
      (clampToBounds x y width height pd).y ≤ pd.height - height := by
  have hmh : max (1 : ℚ) height ≤ pd.height := max_le hph hh
  have hh1 : height ≤ max (1 : ℚ) height := le_max_right _ _
  unfold clampToBounds
  dsimp only
  split_ifs <;> constructor <;> linarith

/-- C2: for all real coordinates and node sizes within `(0, pageWidth] ×
(0, pageHeight]`, `clampToBounds` returns `x' ∈ [0, pageWidth − width]`
and `y' ∈ [0, pageHeight − height]`, following the algorithm
`maxX = pageWidth − max(1,width)`, `maxY = pageHeight − max(1,height)`
(the definition of `clampToBounds` above).  The hypotheses `1 ≤ pd.width`
and `1 ≤ pd.height` record the program's invariant on page dimensions:
the settings tab only accepts integer pixel values greater than 50 and
the defaults are 794 × 1123. -/
theorem clampToBounds_within_bounds (x y width height : ℚ) (pd : PageDimensions)
    (hpw : 1 ≤ pd.width) (hph : 1 ≤ pd.height)
    (_hw0 : 0 < width) (hw : width ≤ pd.width)
    (_hh0 : 0 < height) (hh : height ≤ pd.height) :
    0 ≤ (clampToBounds x y width height pd).x ∧
      (clampToBounds x y width height pd).x ≤ pd.width - width ∧
      0 ≤ (clampToBounds x y width height pd).y ∧
      (clampToBounds x y width height pd).y ≤ pd.height - height :=
  ⟨(clampToBounds_x_bounds x y width height pd hpw hw).1,
    (clampToBounds_x_bounds x y width height pd hpw hw).2,
    (clampToBounds_y_bounds x y width height pd hph hh).1,
    (clampToBounds_y_bounds x y width height pd hph hh).2⟩

/-- Witness for C2 at a concrete input: the spec's own scenario page size
794 × 1123 with a 150 × 80 node reported at `(-5, 2000)`. -/
theorem clampToBounds_within_bounds_witness :
    0 ≤ (clampToBounds (-5) 2000 150 80 ⟨794, 1123⟩).x ∧
      (clampToBounds (-5) 2000 150 80 ⟨794, 1123⟩).x ≤ (794 : ℚ) - 150 ∧
      0 ≤ (clampToBounds (-5) 2000 150 80 ⟨794, 1123⟩).y ∧
      (clampToBounds (-5) 2000 150 80 ⟨794, 1123⟩).y ≤ (1123 : ℚ) - 80 :=
  clampToBounds_within_bounds (-5) 2000 150 80 ⟨794, 1123⟩
    (by norm_num) (by norm_num) (by norm_num) (by norm_num)
    (by norm_num) (by norm_num)

/-- C3: if the node is wider than the page, the clamped x-coordinate is 0
regardless of the input coordinates, and symmetrically for the height.
No assumption on the page dimensions is needed. -/
theorem clampToBounds_oversized_axis_zero (x y width height : ℚ)
    (pd : PageDimensions) :
    (pd.width < width → (clampToBounds x y width height pd).x = 0) ∧
      (pd.height < height → (clampToBounds x y width height pd).y = 0) := by
  constructor
  · intro hwide
    have hmax : pd.width - max 1 width < 0 := by
      have : width ≤ max (1 : ℚ) width := le_max_right _ _
      linarith
    unfold clampToBounds
    dsimp only
    split_ifs <;> first
      | rfl
      | linarith
  · intro htall
    have hmax : pd.height - max 1 height < 0 := by
      have : height ≤ max (1 : ℚ) height := le_max_right _ _
      linarith
    unfold clampToBounds
    dsimp only
    split_ifs <;> first
      | rfl
      | linarith

/-- Witness for C3 at a concrete input: a 1000-pixel-wide and
2000-pixel-tall node on a 794 × 1123 page, reported at `(500, 600)`. -/
theorem clampToBounds_oversized_axis_zero_witness :
    (clampToBounds 500 600 1000 2000 ⟨794, 1123⟩).x = 0 ∧
      (clampToBounds 500 600 1000 2000 ⟨794, 1123⟩).y = 0 :=
  ⟨(clampToBounds_oversized_axis_zero 500 600 1000 2000 ⟨794, 1123⟩).1
      (by norm_num),
    (clampToBounds_oversized_axis_zero 500 600 1000 2000 ⟨794, 1123⟩).2
      (by norm_num)⟩

/-- `NodeState` (src/types.ts lines 9-13): logical page assignment and
page-relative coordinates of a node. -/
structure NodeState where
  pageIndex : Int
  x : ℚ
  y : ℚ
deriving DecidableEq, Repr

/-- The geometry rect reported by the live surface
(`getNodeRectFromElement`). -/
structure Rect where
  x : ℚ
  y : ℚ
  width : ℚ
  height : ℚ
deriving DecidableEq, Repr

/-- The `nodeStates : Map<string, NodeState>` store, as an association
list (keys are unique in every reachable state). -/
abbrev NodeStateMap := List (String × NodeState)

/-- JavaScript `Map.prototype.set`: replaces the value in place when the
key is present, appends otherwise. -/
def mapSet (m : NodeStateMap) (k : String) (v : NodeState) : NodeStateMap :=
  if m.any (fun e => e.1 == k) then
    m.map (fun e => if e.1 == k then (k, v) else e)
  else m ++ [(k, v)]

/-- JavaScript `Map.prototype.has`. -/
def mapHas (m : NodeStateMap) (k : String) : Bool :=
  m.any (fun e => e.1 == k)

/-- JavaScript `Map.prototype.get` (`undefined` modelled as `none`). -/
def mapLookup : NodeStateMap → String → Option NodeState
  | [], _ => none
  | e :: rest, k => if e.1 = k then some e.2 else mapLookup rest k

/-- JavaScript `Map.prototype.delete` (keys are unique in every reachable
store, so removing every entry with the key is the same as removing the
entry). -/
def mapDelete : NodeStateMap → String → NodeStateMap
  | [], _ => []
  | e :: rest, k => if e.1 = k then mapDelete rest k else e :: mapDelete rest k

/-- Result record of `updateNodeStateFromStyleChange`
(src/unnamed/part_003 line 183): the `stateChanged` flag, the clamp's
result (with its own `changed` flag), and the node-state store after the
call. -/
structure StyleChangeResult where
  stateChanged : Bool
  clampedResult : ClampResult
  nodeStates : NodeStateMap
deriving DecidableEq, Repr

/-- `StateManager.updateNodeStateFromStyleChange`
(src/unnamed/part_003 lines 183-195).  Called when the live surface
reports geometry for a node that already has a `NodeState`.  The store
mutation `this.nodeStates.set(...)` is returned as the `nodeStates`
component. -/
def updateNodeStateFromStyleChange (pd : PageDimensions)
    (nodeStates : NodeStateMap) (nodeId : String) (currentState : NodeState)
    (rect : Rect) : StyleChangeResult :=
  let targetPageIndex := currentState.pageIndex
  let relativeX := rect.x
  let relativeY := rect.y - (targetPageIndex : ℚ) * (pd.height + PAGE_GAP)
  let clampedResult := clampToBounds relativeX relativeY rect.width rect.height pd
  if clampedResult.x ≠ currentState.x ∨ clampedResult.y ≠ currentState.y then
    ⟨true, clampedResult,
      mapSet nodeStates nodeId ⟨targetPageIndex, clampedResult.x, clampedResult.y⟩⟩
  else
    ⟨false, clampedResult, nodeStates⟩

/-- Page `i` starts at absolute offset `i × (pageHeight + gap)`
(spec §3 / glossary). -/
def pageOffset (pd : PageDimensions) (i : Int) : ℚ :=
  (i : ℚ) * (pd.height + PAGE_GAP)

/-- Written from the spec's words for the reconcile operation (spec §4.3
`reconcileMove`): `lastKnownAbsolute = (currentState.x, currentState.y +
pageOffset(currentState.pageIndex))`; `delta = newAbsoluteRect −
lastKnownAbsolute`; the candidate relative position is the stored
relative coordinates plus `delta`.  Used only to compare against the
source-derived `updateNodeStateFromStyleChange`. -/
def specReconcileCandidate (pd : PageDimensions) (currentState : NodeState)
    (rect : Rect) : ℚ × ℚ :=
  let lastKnownAbsoluteX := currentState.x
  let lastKnownAbsoluteY := currentState.y + pageOffset pd currentState.pageIndex
  let deltaX := rect.x - lastKnownAbsoluteX
  let deltaY := rect.y - lastKnownAbsoluteY
  (currentState.x + deltaX, currentState.y + deltaY)

/-- C1: on a geometry report for a node with an existing `NodeState`, the
operation clamps exactly the candidate position obtained by applying the
delta between the new absolute rect and the last known absolute position
to the stored relative coordinates (`specReconcileCandidate`); it updates
the store and reports `stateChanged = true` exactly when the clamped
result differs from the current state; and the clamp's `changed` flag is
returned in `clampedResult.changed`, separate from `stateChanged`. -/
theorem updateNodeStateFromStyleChange_matches_spec (pd : PageDimensions)
    (ns : NodeStateMap) (nodeId : String) (st : NodeState) (rect : Rect) :
    (updateNodeStateFromStyleChange pd ns nodeId st rect).clampedResult =
        clampToBounds (specReconcileCandidate pd st rect).1
          (specReconcileCandidate pd st rect).2 rect.width rect.height pd ∧
      ((updateNodeStateFromStyleChange pd ns nodeId st rect).stateChanged = true ↔
        ((updateNodeStateFromStyleChange pd ns nodeId st rect).clampedResult.x ≠ st.x ∨
          (updateNodeStateFromStyleChange pd ns nodeId st rect).clampedResult.y ≠ st.y)) ∧
      (updateNodeStateFromStyleChange pd ns nodeId st rect).nodeStates =
        (if (updateNodeStateFromStyleChange pd ns nodeId st rect).stateChanged then
          mapSet ns nodeId
            ⟨st.pageIndex,
              (updateNodeStateFromStyleChange pd ns nodeId st rect).clampedResult.x,
              (updateNodeStateFromStyleChange pd ns nodeId st rect).clampedResult.y⟩
        else ns) ∧
      (updateNodeStateFromStyleChange pd ns nodeId st rect).clampedResult.changed =
        (clampToBounds (specReconcileCandidate pd st rect).1
          (specReconcileCandidate pd st rect).2 rect.width rect.height pd).changed := by
  have hcand : specReconcileCandidate pd st rect =
      (rect.x, rect.y - (st.pageIndex : ℚ) * (pd.height + PAGE_GAP)) := by
    unfold specReconcileCandidate pageOffset
    dsimp only
    simp only [Prod.mk.injEq]
    constructor <;> ring
  rw [hcand]
  unfold updateNodeStateFromStyleChange
  dsimp only
  split_ifs <;> simp_all

/-- `PageData` (src/types.ts lines 3-7). -/
structure PageData where
  id : String
  index : Int
  name : String
deriving DecidableEq, Repr

/-- A `NodeState` as it may sit in memory right after deserialisation:
`pageIndex` may be `undefined` (`none`) and the coordinates may be
non-numeric (`none`).  `validateState` repairs such values. -/
structure RawNodeState where
  pageIndex : Option Int
  x : Option ℚ
  y : Option ℚ
deriving DecidableEq, Repr

/-- The StateManager's in-memory model: `pages`, `nodeStates`,
`currentPageIndex` (src/unnamed/part_003 lines 7-9). -/
structure CanvasState where
  pages : List PageData
  nodeStates : List (String × RawNodeState)
  currentPageIndex : Int
deriving DecidableEq, Repr

/-- The fresh page created by `resetLocalState` / `validateState`
(`{ id: generatePageId(), index: 0, name: 'Page 1' }`); the generated id
is passed in explicitly. -/
def freshPage (id : String) : PageData :=
  ⟨id, 0, "Page 1"⟩

/-- `this.pages.forEach((page, index) => page.index = index)`: re-number
page indices to match array position, starting at `start`. -/
def reindexPages (start : Int) : List PageData → List PageData
  | [] => []
  | p :: ps => { p with index := start } :: reindexPages (start + 1) ps

/-- The per-entry body of the `nodeStates.forEach` loop in
`validateState` (src/unnamed/part_003 lines 144-148): an `undefined` or
out-of-range `pageIndex` becomes 0, a non-numeric coordinate becomes 0. -/
def repairRawNodeState (maxPageIndex : Int) (s : RawNodeState) : RawNodeState :=
  let pi : Int :=
    match s.pageIndex with
    | none => 0
    | some p => if p < 0 ∨ p > maxPageIndex then 0 else p
  let xv : ℚ := match s.x with | none => 0 | some v => v
  let yv : ℚ := match s.y with | none => 0 | some v => v
  ⟨some pi, some xv, some yv⟩

/-- `StateManager.validateState` (src/unnamed/part_003 lines 138-150).
The `Array.isArray` / `instanceof Map` guards of the source are identity
on the typed model and are omitted; `maxPageIndex` is the last index
assigned by the `forEach` over the (non-empty) page list, i.e.
`pages.length - 1`. -/
def validateState (freshId : String) (st : CanvasState) : CanvasState :=
  let pages0 := if st.pages.isEmpty then [freshPage freshId] else st.pages
  let pages := reindexPages 0 pages0
  let maxPageIndex : Int := (pages.length : Int) - 1
  let nodeStates := st.nodeStates.map
    (fun e => (e.1, repairRawNodeState maxPageIndex e.2))
  let currentPageIndex :=
    if st.currentPageIndex < 0 ∨ st.currentPageIndex > maxPageIndex then 0
    else st.currentPageIndex
  ⟨pages, nodeStates, currentPageIndex⟩

theorem reindexPages_length (start : Int) (l : List PageData) :
    (reindexPages start l).length = l.length := by
  induction l generalizing start with
  | nil => rfl
  | cons p ps ih => simp [reindexPages, ih]

theorem reindexPages_get (start : Int) (l : List PageData) (i : Nat)
    (h : i < (reindexPages start l).length) :
    (reindexPages start l).get ⟨i, h⟩ =
      { l.get ⟨i, by rwa [reindexPages_length] at h⟩ with index := start + i } := by
  induction l generalizing start i with
  | nil => simp [reindexPages] at h
  | cons p ps ih =>
    cases i with
    | zero => simp [reindexPages]
    | succ n =>
      have hn : n < (reindexPages (start + 1) ps).length := by
        simpa [reindexPages] using h
      simp only [reindexPages, List.get_cons_succ]
      rw [ih (start + 1) n hn]
      push_cast
      ring_nf

theorem reindexPages_idem (start : Int) (l : List PageData) :
    reindexPages start (reindexPages start l) = reindexPages start l := by
  induction l generalizing start with
  | nil => rfl
  | cons p ps ih => simp [reindexPages, ih]

theorem validateState_pages_pos (freshId : String) (st : CanvasState) :
    0 < (validateState freshId st).pages.length := by
  unfold validateState
  dsimp only
  rw [reindexPages_length]
  split_ifs with h
  · simp
  · simpa [List.isEmpty_iff, List.length_pos] using h

theorem repairRawNodeState_idem (M : Int) (s : RawNodeState) :
    repairRawNodeState M (repairRawNodeState M s) = repairRawNodeState M s := by
  unfold repairRawNodeState
  cases s.pageIndex with
  | none => simp
  | some p =>
    dsimp only
    split_ifs with h1 h2 <;> simp_all

theorem validateState_cpi_range (freshId : String) (st : CanvasState) :
    0 ≤ (validateState freshId st).currentPageIndex ∧
      (validateState freshId st).currentPageIndex <
        (((validateState freshId st).pages.length : Int)) := by
  unfold validateState
  dsimp only
  rw [reindexPages_length]
  by_cases hemp : st.pages.isEmpty = true
  · rw [if_pos hemp]
    simp only [List.length_singleton]
    split_ifs with h <;> constructor <;> omega
  · rw [if_neg hemp]
    have hlen : 0 < st.pages.length := by
      simpa [List.isEmpty_iff, List.length_pos] using hemp
    split_ifs with h <;> constructor <;> omega

theorem validateState_idem (freshId freshId2 : String) (st : CanvasState) :
    validateState freshId2 (validateState freshId st) = validateState freshId st := by
  have hpos : 0 < (reindexPages 0
      (if st.pages.isEmpty then [freshPage freshId] else st.pages)).length :=
    validateState_pages_pos freshId st
  have hcpi := validateState_cpi_range freshId st
  have hne : (reindexPages 0
      (if st.pages.isEmpty then [freshPage freshId] else st.pages)).isEmpty = false := by
    cases hcase : reindexPages 0
        (if st.pages.isEmpty then [freshPage freshId] else st.pages) with
    | nil => rw [hcase] at hpos; simp at hpos
    | cons a l => rfl
  unfold validateState at hcpi ⊢
  dsimp only at hcpi ⊢
  rw [hne]
  simp only [Bool.false_eq_true, if_false, reindexPages_idem, List.map_map]
  simp only [CanvasState.mk.injEq]
  refine ⟨trivial, ?_, ?_⟩
  · simp [Function.comp, repairRawNodeState_idem]
  · rw [if_neg (by omega)]

/-- C4: after `validateState` runs, every page's `index` equals its
position in the pages array; every node entry is the repair of the
corresponding input entry with `maxPageIndex = |Pages| − 1`, where the
repair sends an `undefined` or out-of-range `pageIndex` to 0, keeps an
in-range one, sends a non-numeric coordinate to 0 and keeps a numeric
one; `currentPageIndex` ends up in `[0, |Pages|)`; and running
`validateState` a second time (with any freshly generated page id)
changes nothing. -/
theorem validateState_repairs_and_idempotent (freshId : String) (st : CanvasState) :
    (∀ i (h : i < (validateState freshId st).pages.length),
        ((validateState freshId st).pages.get ⟨i, h⟩).index = (i : Int)) ∧
      (validateState freshId st).nodeStates =
        st.nodeStates.map (fun e =>
          (e.1, repairRawNodeState
            ((((validateState freshId st).pages.length : Int)) - 1) e.2)) ∧
      (∀ (M : Int) (s : RawNodeState),
        (s.pageIndex = none → (repairRawNodeState M s).pageIndex = some 0) ∧
        (∀ p, s.pageIndex = some p → (p < 0 ∨ M < p) →
          (repairRawNodeState M s).pageIndex = some 0) ∧
        (∀ p, s.pageIndex = some p → 0 ≤ p → p ≤ M →
          (repairRawNodeState M s).pageIndex = some p) ∧
        (s.x = none → (repairRawNodeState M s).x = some 0) ∧
        (∀ v, s.x = some v → (repairRawNodeState M s).x = some v) ∧
        (s.y = none → (repairRawNodeState M s).y = some 0) ∧
        (∀ v, s.y = some v → (repairRawNodeState M s).y = some v)) ∧
      (0 ≤ (validateState freshId st).currentPageIndex ∧
        (validateState freshId st).currentPageIndex <
          (((validateState freshId st).pages.length : Int))) ∧
      (∀ freshId2, validateState freshId2 (validateState freshId st) =
        validateState freshId st) := by
  refine ⟨?_, rfl, ?_, validateState_cpi_range freshId st,
    fun freshId2 => validateState_idem freshId freshId2 st⟩
  · have H : ∀ (l : List PageData) i (h : i < (reindexPages 0 l).length),
        ((reindexPages 0 l).get ⟨i, h⟩).index = (i : Int) := by
      intro l i h
      rw [reindexPages_get]
      simp
    exact H (if st.pages.isEmpty then [freshPage freshId] else st.pages)
  · intro M s
    refine ⟨?_, ?_, ?_, ?_, ?_, ?_, ?_⟩ <;>
      unfold repairRawNodeState <;> dsimp only
    · intro hnone; rw [hnone]
    · intro p hp hout; rw [hp]; dsimp only; rw [if_pos (by omega)]
    · intro p hp h0 hM; rw [hp]; dsimp only; rw [if_neg (by omega)]
    · intro hnone; rw [hnone]
    · intro v hv; rw [hv]
    · intro hnone; rw [hnone]
    · intro v hv; rw [hv]

/-- Witness for C4: the idempotence component of the theorem applied at a
concrete broken state (a desynced page index, an out-of-range node page,
a non-numeric coordinate, and an out-of-range `currentPageIndex`). -/
theorem validateState_repairs_and_idempotent_witness :
    validateState "q"
        (validateState "p"
          ⟨[⟨"a", 7, "Page 1"⟩], [("n1", ⟨some 5, none, some 3⟩)], 9⟩) =
      validateState "p"
        ⟨[⟨"a", 7, "Page 1"⟩], [("n1", ⟨some 5, none, some 3⟩)], 9⟩ :=
  (validateState_repairs_and_idempotent "p"
    ⟨[⟨"a", 7, "Page 1"⟩], [("n1", ⟨some 5, none, some 3⟩)], 9⟩).2.2.2.2 "q"

/-- `StateManager.setCurrentPageIndex` (src/unnamed/part_003 lines
21-37): returns the new `currentPageIndex`.  An in-range index is stored
as is; an out-of-range index is clamped to the nearest valid index
(`Math.max(0, Math.min(index, pages.length - 1))`) when pages exist, and
to 0 otherwise.  The previous value is overwritten in every branch. -/
def setCurrentPageIndex (pagesLength : Nat) (index : Int) : Int :=
  if 0 ≤ index ∧ index < (pagesLength : Int) then index
  else if 0 < pagesLength then max 0 (min index ((pagesLength : Int) - 1))
  else 0

/-- C7: with a non-empty page list, `setCurrentPageIndex` keeps an
in-range index, sends a negative request to 0 and an overflowing request
to `|Pages| − 1`; it never fails and never leaves the previous value in
place by default. -/
theorem setCurrentPageIndex_clamps (n : Nat) (index : Int) (hn : 0 < n) :
    (0 ≤ index ∧ index < (n : Int) → setCurrentPageIndex n index = index) ∧
      (index < 0 → setCurrentPageIndex n index = 0) ∧
      ((n : Int) ≤ index → setCurrentPageIndex n index = (n : Int) - 1) := by
  unfold setCurrentPageIndex
  refine ⟨fun h => if_pos h, ?_, ?_⟩
  · intro hneg
    rw [if_neg (by omega), if_pos hn]
    omega
  · intro hover
    rw [if_neg (by omega), if_pos hn]
    omega

/-- Witness for C7: three pages; the in-range request 1 is kept, −2 goes
to 0, and 7 goes to 2. -/
theorem setCurrentPageIndex_clamps_witness :
    setCurrentPageIndex 3 1 = 1 ∧ setCurrentPageIndex 3 (-2) = 0 ∧
      setCurrentPageIndex 3 7 = (3 : Int) - 1 :=
  ⟨(setCurrentPageIndex_clamps 3 1 (by norm_num)).1 (by norm_num),
    (setCurrentPageIndex_clamps 3 (-2) (by norm_num)).2.1 (by norm_num),
    (setCurrentPageIndex_clamps 3 7 (by norm_num)).2.2 (by norm_num)⟩

/-- The plugin-side state touched by `goToPage`: the page list, the
node-state store and the current page index (all owned by the
`StateManager` instance the plugin delegates to). -/
structure PluginState where
  pages : List PageData
  nodeStates : NodeStateMap
  currentPageIndex : Int
deriving DecidableEq, Repr

/-- Result of `goToPage`: the state afterwards and the list of
user-visible notices shown (`showNotice` calls, which construct an
Obsidian `Notice`; `console.warn` / `console.log` are not user-visible
and are not recorded). -/
structure GoToPageResult where
  state : PluginState
  notices : List String
deriving DecidableEq, Repr

/-- `pages[targetPageIndex].name` for the switch notice. -/
def pageNameAt (pages : List PageData) (i : Int) : String :=
  match pages.get? i.toNat with
  | some p => p.name
  | none => ""

/-- `PaperCanvasPlugin.goToPage` (src/main.ts lines 881-911, the
stabilized modular iteration; the same logic appears at lines
1158-1181).  `getPages()` re-numbers page indices before returning
(src/unnamed/part_003 lines 39-43), which is modelled by the `reindexPages`
normalisation; an invalid target only logs `console.warn` and returns;
a successful switch stores the index through
`StateManager.setCurrentPageIndex` and shows the switch notice. -/
def goToPage (isCanvas canvasElPresent : Bool) (st : PluginState)
    (targetPageIndex : Int) : GoToPageResult :=
  let pages := reindexPages 0 st.pages
  let st1 : PluginState := { st with pages := pages }
  let totalPages : Int := (pages.length : Int)
  if targetPageIndex < 0 ∨ totalPages ≤ targetPageIndex then ⟨st1, []⟩
  else if targetPageIndex = st1.currentPageIndex then ⟨st1, []⟩
  else if isCanvas = false then ⟨st1, []⟩
  else if canvasElPresent = false then ⟨st1, []⟩
  else ⟨{ st1 with currentPageIndex := setCurrentPageIndex pages.length targetPageIndex },
    ["Switched to " ++ pageNameAt pages targetPageIndex]⟩

/-- A node named in a `childList` removal notification: whether the
element carries the `canvas-node` class, and its `id` attribute
(`""` when unset). -/
structure RemovedNodeInfo where
  isCanvasNode : Bool
  id : String
deriving DecidableEq, Repr

/-- The `mutation.removedNodes.forEach` body of the canvas observer
(src/unnamed/part_000 lines 214-224; the stabilized observer in
src/viewManager.ts lines 167-169 has an empty removal body).  Both
branches only log — the node's state is deliberately retained. -/
def handleRemovedNode (nodeStates : NodeStateMap) (n : RemovedNodeInfo) :
    NodeStateMap :=
  if n.isCanvasNode then
    if n.id ≠ "" ∧ mapHas nodeStates n.id then
      nodeStates
    else
      nodeStates
  else nodeStates

/-- `StateManager.removeNodeState` (src/unnamed/part_003 lines 197-202):
the explicit removal request; deletes the entry and schedules a save. -/
def removeNodeState (nodeStates : NodeStateMap) (nodeId : String) :
    NodeStateMap :=
  mapDelete nodeStates nodeId

theorem mapLookup_cons (e : String × NodeState) (rest : NodeStateMap)
    (k : String) :
    mapLookup (e :: rest) k = if e.1 = k then some e.2 else mapLookup rest k :=
  rfl

theorem mapLookup_mapDelete_self (m : NodeStateMap) (id : String) :
    mapLookup (mapDelete m id) id = none := by
  induction m with
  | nil => rfl
  | cons e rest ih =>
    unfold mapDelete
    split_ifs with h
    · exact ih
    · rw [mapLookup_cons, if_neg h]
      exact ih

theorem mapLookup_mapDelete_other (m : NodeStateMap) (id k : String)
    (hk : k ≠ id) :
    mapLookup (mapDelete m id) k = mapLookup m k := by
  induction m with
  | nil => rfl
  | cons e rest ih =>
    unfold mapDelete
    split_ifs with h
    · rw [ih, mapLookup_cons,
        if_neg (show ¬e.1 = k by rw [h]; exact fun hh => hk hh.symm)]
    · rw [mapLookup_cons, mapLookup_cons]
      by_cases h2 : e.1 = k
      · rw [if_pos h2, if_pos h2]
      · rw [if_neg h2, if_neg h2]
        exact ih

/-- C5: a DOM-removal notification leaves the node-state store unchanged
(the observer's removal handler only logs, for both branches); switching
pages via `goToPage` never touches the store; and the explicit
`removeNodeState` request is what deletes — it removes exactly the
requested id and preserves every other binding. -/
theorem nodeState_retained_on_removal (ns : NodeStateMap)
    (n : RemovedNodeInfo) (cv ce : Bool) (st : PluginState) (t : Int)
    (id k : String) :
    handleRemovedNode ns n = ns ∧
      (goToPage cv ce st t).state.nodeStates = st.nodeStates ∧
      mapLookup (removeNodeState ns id) id = none ∧
      (k ≠ id → mapLookup (removeNodeState ns id) k = mapLookup ns k) := by
  refine ⟨?_, ?_, mapLookup_mapDelete_self ns id,
    fun hk => mapLookup_mapDelete_other ns id k hk⟩
  · unfold handleRemovedNode
    split_ifs <;> rfl
  · unfold goToPage
    dsimp only
    split_ifs <;> rfl

/-- Witness for C5: deleting `"a"` from a one-entry store leaves the
lookup of the unrelated key `"b"` unchanged, by the theorem at concrete
inputs. -/
theorem nodeState_retained_on_removal_witness :
    mapLookup (removeNodeState [("a", ⟨0, 1, 2⟩)] "a") "b" =
      mapLookup [("a", ⟨0, 1, 2⟩)] "b" :=
  (nodeState_retained_on_removal [("a", ⟨0, 1, 2⟩)] ⟨true, "a"⟩ true true
    ⟨[⟨"p", 0, "Page 1"⟩], [("a", ⟨0, 1, 2⟩)], 0⟩ 0 "a" "b").2.2.2
    (by decide)

/-- A single-page plugin state with correctly numbered pages and an empty
store. -/
def onePageState : PluginState :=
  ⟨[⟨"p1", 0, "Page 1"⟩], [], 0⟩

/-- C8 counterexample: navigating `onePageState` to the non-existent page
index 5 mutates nothing — but also shows no user-visible notice (the
notices list is empty), contrary to the claim; the stabilized `goToPage`
only emits `console.warn` on an invalid target.  (The user-visible
"Page N does not exist." notice exists only in the superseded single-file
iteration, src/unnamed/part_000 lines 566-574.) -/
theorem goToPage_invalid_no_notice :
    goToPage true true onePageState 5 = ⟨onePageState, []⟩ := by
  decide

/-- C8 amended: a request to navigate to a non-existent page index
(`index < 0` or `index ≥ |Pages|`) is rejected and mutates no state —
pages (already index-normalized, which `getPages` always guarantees),
node states and `currentPageIndex` are unchanged — but it produces no
user-visible notice, only a console warning. -/
theorem goToPage_invalid_rejected (cv ce : Bool) (st : PluginState) (t : Int)
    (hIdx : reindexPages 0 st.pages = st.pages)
    (hInvalid : t < 0 ∨ ((st.pages.length : Int)) ≤ t) :
    goToPage cv ce st t = ⟨st, []⟩ := by
  unfold goToPage
  dsimp only
  rw [hIdx]
  rw [if_pos hInvalid]

/-- Witness for the amended C8 at a concrete input: a negative target on
a two-page state. -/
theorem goToPage_invalid_rejected_witness :
    goToPage true true ⟨[⟨"p1", 0, "Page 1"⟩, ⟨"p2", 1, "Page 2"⟩], [], 1⟩
        (-3) =
      ⟨⟨[⟨"p1", 0, "Page 1"⟩, ⟨"p2", 1, "Page 2"⟩], [], 1⟩, []⟩ :=
  goToPage_invalid_rejected true true
    ⟨[⟨"p1", 0, "Page 1"⟩, ⟨"p2", 1, "Page 2"⟩], [], 1⟩ (-3)
    (by decide) (by decide)

/-- An element of the serialized `nodeStates` array.  `pair` is a
`[key, value]` entry that `new Map(...)` accepts and `validateState` can
repair; `malformed` is any entry that makes the load's `try` block throw
(a non-object entry throws in the `Map` constructor, an entry whose value
slot is not an object throws inside `validateState`), landing in the
`catch`. -/
inductive MapEntry where
  | pair (key : String) (val : RawNodeState)
  | malformed
deriving DecidableEq, Repr

/-- `new Map(state.nodeStates)` together with the subsequent
`validateState` traversal: succeeds with the list of entries exactly when
every entry is well-formed, otherwise throws (modelled as `none`). -/
def entriesToMap : List MapEntry → Option (List (String × RawNodeState))
  | [] => some []
  | MapEntry.pair k v :: rest => (entriesToMap rest).map (fun m => (k, v) :: m)
  | MapEntry.malformed :: _ => none

/-- The shape of a stored blob found under the document key.  `version`
is the stored `version` field; `pagesIsArray` / `nodeStatesIsArray`
record the `Array.isArray` checks (when false the corresponding list is
irrelevant).  A persisted `SavedCanvasState` (src/types.ts lines 20-24)
carries exactly `version`, `pages` and `nodeStates` — in particular no
current-page field. -/
structure SavedBlob where
  version : Int
  pagesIsArray : Bool
  pages : List PageData
  nodeStatesIsArray : Bool
  nodeStates : List MapEntry
deriving DecidableEq, Repr

/-- `StateManager.resetLocalState` (src/unnamed/part_003 lines 53-58):
fresh single-page model, empty node map, current page 0. -/
def resetLocalState (freshId : String) : CanvasState :=
  ⟨[freshPage freshId], [], 0⟩

/-- `StateManager.loadCanvasData` (src/unnamed/part_003 lines 86-112) for
an open file (the `key` exists).  `savedState = none` models a missing or
falsy entry.  On a version match with both fields arrays, the model is
replaced (an empty pages array is replaced by a fresh single page), the
current page index is set to 0 and `validateState` runs; a throw while
building the map or validating lands in the `catch` and resets.  All
other cases reset to a fresh single-page model and report `false`.  The
function is total: no case throws to the caller. -/
def loadCanvasData (freshId loadFreshId : String)
    (savedState : Option SavedBlob) : CanvasState × Bool :=
  match savedState with
  | none => (resetLocalState freshId, false)
  | some state =>
    if state.version = CANVAS_DATA_VERSION ∧ state.pagesIsArray = true ∧
        state.nodeStatesIsArray = true then
      match entriesToMap state.nodeStates with
      | some m =>
        let pages :=
          if 0 < state.pages.length then state.pages else [freshPage loadFreshId]
        (validateState loadFreshId ⟨pages, m, 0⟩, true)
      | none => (resetLocalState freshId, false)
    else (resetLocalState freshId, false)

theorem loadCanvasData_success_eq (freshId loadFreshId : String)
    (state : SavedBlob) (m : List (String × RawNodeState))
    (hm : entriesToMap state.nodeStates = some m)
    (hv : state.version = CANVAS_DATA_VERSION)
    (hpa : state.pagesIsArray = true) (hna : state.nodeStatesIsArray = true) :
    loadCanvasData freshId loadFreshId (some state) =
      (validateState loadFreshId
        ⟨if 0 < state.pages.length then state.pages
          else [freshPage loadFreshId], m, 0⟩, true) := by
  simp only [loadCanvasData]
  rw [if_pos ⟨hv, hpa, hna⟩, hm]

theorem loadCanvasData_true_iff (freshId loadFreshId : String)
    (blob : Option SavedBlob) :
    (loadCanvasData freshId loadFreshId blob).2 = true ↔
      ∃ state, blob = some state ∧ state.version = CANVAS_DATA_VERSION ∧
        state.pagesIsArray = true ∧ state.nodeStatesIsArray = true ∧
        (entriesToMap state.nodeStates).isSome = true := by
  cases blob with
  | none =>
    simp [loadCanvasData]
  | some state =>
    constructor
    · intro h
      by_cases hcond : state.version = CANVAS_DATA_VERSION ∧
          state.pagesIsArray = true ∧ state.nodeStatesIsArray = true
      · cases hm : entriesToMap state.nodeStates with
        | some m =>
          exact ⟨state, rfl, hcond.1, hcond.2.1, hcond.2.2, by rw [hm]; rfl⟩
        | none =>
          rw [show loadCanvasData freshId loadFreshId (some state) =
            (resetLocalState freshId, false) by
              simp only [loadCanvasData]; rw [if_pos hcond, hm]] at h
          exact absurd h (by simp)
      · rw [show loadCanvasData freshId loadFreshId (some state) =
          (resetLocalState freshId, false) by
            simp only [loadCanvasData]; rw [if_neg hcond]] at h
        exact absurd h (by simp)
    · rintro ⟨state2, hs, hv, hpa, hna, hsome⟩
      cases hs
      obtain ⟨m, hm⟩ := Option.isSome_iff_exists.mp hsome
      rw [loadCanvasData_success_eq freshId loadFreshId state m hm hv hpa hna]

theorem loadCanvasData_false_eq (freshId loadFreshId : String)
    (blob : Option SavedBlob)
    (h : (loadCanvasData freshId loadFreshId blob).2 = false) :
    (loadCanvasData freshId loadFreshId blob).1 = resetLocalState freshId := by
  cases blob with
  | none => rfl
  | some state =>
    by_cases hcond : state.version = CANVAS_DATA_VERSION ∧
        state.pagesIsArray = true ∧ state.nodeStatesIsArray = true
    · cases hm : entriesToMap state.nodeStates with
      | some m =>
        rw [loadCanvasData_success_eq freshId loadFreshId state m hm hcond.1
          hcond.2.1 hcond.2.2] at h
        exact absurd h (by simp)
      | none =>
        rw [show loadCanvasData freshId loadFreshId (some state) =
          (resetLocalState freshId, false) by
            simp only [loadCanvasData]; rw [if_pos hcond, hm]]
    · rw [show loadCanvasData freshId loadFreshId (some state) =
        (resetLocalState freshId, false) by
          simp only [loadCanvasData]; rw [if_neg hcond]]

/-- C6: the load reports `true` and replaces the in-memory model (running
`validateState` on it) exactly when a blob is present, its version
matches `CANVAS_DATA_VERSION` and its `pages` and `nodeStates` fields are
well-formed arrays (every serialized entry `Map`-constructible and
repairable); in every other case — including a throw inside the `try`,
caught by the `catch` — it resets to a fresh single-page model with an
empty node map and reports `false`.  The embedding is a total function:
no input throws. -/
theorem loadCanvasData_version_gate (freshId loadFreshId : String)
    (blob : Option SavedBlob) :
    ((loadCanvasData freshId loadFreshId blob).2 = true ↔
      ∃ state, blob = some state ∧ state.version = CANVAS_DATA_VERSION ∧
        state.pagesIsArray = true ∧ state.nodeStatesIsArray = true ∧
        (entriesToMap state.nodeStates).isSome = true) ∧
      (∀ state m, blob = some state → entriesToMap state.nodeStates = some m →
        state.version = CANVAS_DATA_VERSION → state.pagesIsArray = true →
        state.nodeStatesIsArray = true →
        (loadCanvasData freshId loadFreshId blob).1 =
          validateState loadFreshId
            ⟨if 0 < state.pages.length then state.pages
              else [freshPage loadFreshId], m, 0⟩) ∧
      ((loadCanvasData freshId loadFreshId blob).2 = false →
        (loadCanvasData freshId loadFreshId blob).1 =
          resetLocalState freshId) := by
  refine ⟨loadCanvasData_true_iff freshId loadFreshId blob, ?_,
    loadCanvasData_false_eq freshId loadFreshId blob⟩
  intro state m hs hm hv hpa hna
  cases hs
  rw [loadCanvasData_success_eq freshId loadFreshId state m hm hv hpa hna]

/-- Witness for C6 at a concrete blob: a matching version with one page
and one well-formed node entry loads successfully into the validated
model. -/
theorem loadCanvasData_version_gate_witness :
    (loadCanvasData "f" "g"
        (some ⟨CANVAS_DATA_VERSION, true, [⟨"p", 0, "Page 1"⟩], true,
          [MapEntry.pair "n" ⟨some 0, some 1, some 2⟩]⟩)).1 =
      validateState "g"
        ⟨if 0 < ([⟨"p", 0, "Page 1"⟩] : List PageData).length then
            [⟨"p", 0, "Page 1"⟩]
          else [freshPage "g"], [("n", ⟨some 0, some 1, some 2⟩)], 0⟩ :=
  (loadCanvasData_version_gate "f" "g"
      (some ⟨CANVAS_DATA_VERSION, true, [⟨"p", 0, "Page 1"⟩], true,
        [MapEntry.pair "n" ⟨some 0, some 1, some 2⟩]⟩)).2.1
    ⟨CANVAS_DATA_VERSION, true, [⟨"p", 0, "Page 1"⟩], true,
      [MapEntry.pair "n" ⟨some 0, some 1, some 2⟩]⟩
    [("n", ⟨some 0, some 1, some 2⟩)] rfl rfl rfl rfl rfl

theorem validateState_cpi_zero (freshId : String) (st : CanvasState)
    (h : st.currentPageIndex = 0) :
    (validateState freshId st).currentPageIndex = 0 := by
  unfold validateState
  dsimp only
  rw [h]
  split_ifs <;> rfl

/-- C10: after every successful load the current page index is 0,
whatever page was current when the state was saved — the load sets it to
0 and the subsequent `validateState` keeps it there; a `SavedBlob`
(`SavedCanvasState`, src/types.ts lines 20-24) carries only `version`,
`pages` and `nodeStates`, so no page selection is ever persisted. -/
theorem loadCanvasData_resets_currentPageIndex (freshId loadFreshId : String)
    (blob : Option SavedBlob)
    (h : (loadCanvasData freshId loadFreshId blob).2 = true) :
    (loadCanvasData freshId loadFreshId blob).1.currentPageIndex = 0 := by
  obtain ⟨state, hs, hv, hpa, hna, hsome⟩ :=
    (loadCanvasData_true_iff freshId loadFreshId blob).mp h
  cases hs
  obtain ⟨m, hm⟩ := Option.isSome_iff_exists.mp hsome
  rw [loadCanvasData_success_eq freshId loadFreshId state m hm hv hpa hna]
  exact validateState_cpi_zero loadFreshId _ rfl

/-- Witness for C10 at a concrete blob (stored while page 3 was current —
no trace of that remains in the blob): the loaded state is on page 0. -/
theorem loadCanvasData_resets_currentPageIndex_witness :
    (loadCanvasData "a" "b"
        (some ⟨CANVAS_DATA_VERSION, true,
          [⟨"p", 0, "Page 1"⟩, ⟨"q", 1, "Page 2"⟩], true, []⟩)).1.currentPageIndex =
      0 :=
  loadCanvasData_resets_currentPageIndex "a" "b"
    (some ⟨CANVAS_DATA_VERSION, true,
      [⟨"p", 0, "Page 1"⟩, ⟨"q", 1, "Page 2"⟩], true, []⟩) (by decide)

/-- Char-list version of `String.startsWith` used by the id format
check. -/
def isPrefixCL : List Char → List Char → Bool
  | [], _ => true
  | _ :: _, [] => false
  | a :: as, b :: bs => a == b && isPrefixCL as bs

/-- `nodeId.startsWith('node-')`-style check over the string's
characters. -/
def strStartsWith (s p : String) : Bool :=
  isPrefixCL p.data s.data

/-- The regex `/^[a-zA-Z0-9-_]+$/` of src/unnamed/part_003 line 66: at
least one character, all alphanumeric, `-` or `_`. -/
def isBasicValidId (s : String) : Bool :=
  !s.isEmpty && s.data.all (fun c => c.isAlphanum || c == '-' || c == '_')

/-- A visual node's two identity channels: the element `id` attribute
(`""` when unset, as in the DOM) and the backing
`dataset.paperCanvasNodeId` attribute (`none` when unset). -/
structure NodeEl where
  id : String
  dataAttr : Option String
deriving DecidableEq, Repr

/-- The generate-new branch of `ensureNodeId`: a fresh
`'node-' + Date.now().toString(36) + '-' + random` id (the
nondeterministic suffix is the `seed` parameter), written to both
channels. -/
def genNode (seed : String) : String × NodeEl :=
  let nid := "node-" ++ seed
  (nid, ⟨nid, some nid⟩)

/-- The body of `StateManager.ensureNodeId` (src/unnamed/part_003 lines
64-77) applied to the candidate `nodeEl.id || nodeEl.dataset.paperCanvasNodeId`
(JavaScript `||`: the empty string falls through, a missing dataset
attribute is `none`).  A truthy candidate matching the expected format is
returned and written to whichever channel is falsy; otherwise a fresh id
is generated and written to both channels. -/
def ensureFromCandidate (seed : String) (el : NodeEl) :
    Option String → String × NodeEl
  | some nid =>
    if nid ≠ "" ∧ (strStartsWith nid "node-" = true ∨ isBasicValidId nid = true) then
      let el1 := if el.id ≠ "" then el else { el with id := nid }
      let el2 :=
        if el1.dataAttr ≠ none ∧ el1.dataAttr ≠ some "" then el1
        else { el1 with dataAttr := some nid }
      (nid, el2)
    else genNode seed
  | none => genNode seed

/-- `StateManager.ensureNodeId` (src/unnamed/part_003 lines 64-77):
returns the id and the node with its attributes after the call. -/
def ensureNodeId (seed : String) (el : NodeEl) : String × NodeEl :=
  ensureFromCandidate seed el (if el.id ≠ "" then some el.id else el.dataAttr)

/-- Stripping the primary identity channel (the element `id`), e.g. by
the host recreating the element. -/
def stripIdChannel (el : NodeEl) : NodeEl :=
  { el with id := "" }

/-- Stripping the secondary identity channel (the backing data
attribute). -/
def stripDataChannel (el : NodeEl) : NodeEl :=
  { el with dataAttr := none }

/-- A node whose two channels already carry different valid identities:
the element id says `"abc"`, the backing attribute says `"xyz"`. -/
def desyncNode : NodeEl :=
  ⟨"abc", some "xyz"⟩

/-- C9 counterexample: on `desyncNode` the first two calls both return
`"abc"` (so "twice returns the same id" holds here), but the secondary
channel keeps its different value `"xyz"` — `ensureNodeId` only fills
falsy channels and never repairs a desync between two truthy values — so
after stripping the element-id channel the third call returns `"xyz"`,
not the original id `"abc"`.  The claim, which asserts the third call
still returns the original id after stripping one of the two channels,
is false at this input. -/
theorem ensureNodeId_desync_counterexample :
    (ensureNodeId "s1" desyncNode).1 = "abc" ∧
      (ensureNodeId "s2" (ensureNodeId "s1" desyncNode).2).1 = "abc" ∧
      (ensureNodeId "s3" (stripIdChannel
        (ensureNodeId "s2" (ensureNodeId "s1" desyncNode).2).2)).1 = "xyz" := by
  decide

theorem isPrefixCL_self_append (l t : List Char) :
    isPrefixCL l (l ++ t) = true := by
  induction l with
  | nil => rfl
  | cons a as ih => simp [isPrefixCL, ih]

theorem genNode_id_ne_empty (seed : String) : ("node-" ++ seed) ≠ "" := by
  intro h
  have hd := congrArg String.data h
  rw [String.data_append] at hd
  have hnil : ("" : String).data = [] := rfl
  rw [hnil, List.append_eq_nil] at hd
  exact absurd hd.1 (by decide)

theorem strStartsWith_gen (seed : String) :
    strStartsWith ("node-" ++ seed) "node-" = true := by
  unfold strStartsWith
  rw [String.data_append]
  exact isPrefixCL_self_append _ _

theorem ensureNodeId_stable (seed : String) (n : String) (hn : n ≠ "")
    (hv : strStartsWith n "node-" = true ∨ isBasicValidId n = true) :
    ensureNodeId seed ⟨n, some n⟩ = (n, ⟨n, some n⟩) ∧
      ensureNodeId seed ⟨"", some n⟩ = (n, ⟨n, some n⟩) ∧
      ensureNodeId seed ⟨n, none⟩ = (n, ⟨n, some n⟩) := by
  refine ⟨?_, ?_, ?_⟩ <;>
    (unfold ensureNodeId; simp only [ensureFromCandidate]) <;>
    split_ifs <;> simp_all

theorem ensureNodeId_normal (seed : String) (el : NodeEl)
    (hH : el.id ≠ "" →
      (strStartsWith el.id "node-" = true ∨ isBasicValidId el.id = true) →
      (el.dataAttr = none ∨ el.dataAttr = some "" ∨ el.dataAttr = some el.id)) :
    ∃ n, ensureNodeId seed el = (n, ⟨n, some n⟩) ∧ n ≠ "" ∧
      (strStartsWith n "node-" = true ∨ isBasicValidId n = true) := by
  obtain ⟨i, d⟩ := el
  dsimp only at hH
  unfold ensureNodeId
  by_cases h1 : i ≠ ""
  · rw [if_pos h1]
    simp only [ensureFromCandidate]
    by_cases h2 : i ≠ "" ∧
        (strStartsWith i "node-" = true ∨ isBasicValidId i = true)
    · rw [if_pos h2]
      rcases hH h1 h2.2 with hd | hd | hd <;> subst hd <;>
        refine ⟨i, ?_, h1, h2.2⟩ <;> split_ifs <;> simp_all
    · rw [if_neg h2]
      exact ⟨_, rfl, genNode_id_ne_empty seed, Or.inl (strStartsWith_gen seed)⟩
  · rw [if_neg h1]
    cases d with
    | none =>
      simp only [ensureFromCandidate]
      exact ⟨_, rfl, genNode_id_ne_empty seed, Or.inl (strStartsWith_gen seed)⟩
    | some d0 =>
      simp only [ensureFromCandidate]
      by_cases h2 : d0 ≠ "" ∧
          (strStartsWith d0 "node-" = true ∨ isBasicValidId d0 = true)
      · rw [if_pos h2]
        refine ⟨d0, ?_, h2.1, h2.2⟩
        split_ifs <;> simp_all
      · rw [if_neg h2]
        exact ⟨_, rfl, genNode_id_ne_empty seed, Or.inl (strStartsWith_gen seed)⟩

/-- C9 amended: provided the node does not already carry a truthy backing
attribute different from a truthy, format-valid element id (the desync
the counterexample exhibits, which `ensureNodeId` never repairs), calling
`ensureNodeId` twice returns the same id both times and leaves the node
unchanged, and after either identity channel is stripped a third call
still returns the original id and restores the stripped channel. -/
theorem ensureNodeId_identity_stability (s1 s2 s3 s4 : String) (el : NodeEl)
    (hH : el.id ≠ "" →
      (strStartsWith el.id "node-" = true ∨ isBasicValidId el.id = true) →
      (el.dataAttr = none ∨ el.dataAttr = some "" ∨ el.dataAttr = some el.id)) :
    (ensureNodeId s2 (ensureNodeId s1 el).2).1 = (ensureNodeId s1 el).1 ∧
      (ensureNodeId s2 (ensureNodeId s1 el).2).2 = (ensureNodeId s1 el).2 ∧
      ensureNodeId s3 (stripIdChannel (ensureNodeId s1 el).2) =
        ((ensureNodeId s1 el).1, (ensureNodeId s1 el).2) ∧
      ensureNodeId s4 (stripDataChannel (ensureNodeId s1 el).2) =
        ((ensureNodeId s1 el).1, (ensureNodeId s1 el).2) := by
  obtain ⟨n, heq, hn, hv⟩ := ensureNodeId_normal s1 el hH
  rw [heq]
  dsimp only
  refine ⟨?_, ?_, ?_, ?_⟩
  · rw [(ensureNodeId_stable s2 n hn hv).1]
  · rw [(ensureNodeId_stable s2 n hn hv).1]
  · exact (ensureNodeId_stable s3 n hn hv).2.1
  · exact (ensureNodeId_stable s4 n hn hv).2.2

/-- Witness for the amended C9 at a concrete input: a brand-new node with
neither channel set; both later calls after stripping return the
generated id. -/
theorem ensureNodeId_identity_stability_witness :
    (ensureNodeId "t2" (ensureNodeId "t1" ⟨"", none⟩).2).1 =
        (ensureNodeId "t1" ⟨"", none⟩).1 ∧
      ensureNodeId "t3" (stripIdChannel (ensureNodeId "t1" ⟨"", none⟩).2) =
        ((ensureNodeId "t1" ⟨"", none⟩).1, (ensureNodeId "t1" ⟨"", none⟩).2) :=
  ⟨(ensureNodeId_identity_stability "t1" "t2" "t3" "t4" ⟨"", none⟩
      (by simp)).1,
    (ensureNodeId_identity_stability "t1" "t2" "t3" "t4" ⟨"", none⟩
      (by simp)).2.2.1⟩

end PaperCanvas
